import Mathlib

/-!
Shallow embedding of the connectivity and session-coordination layer of the
Twende_app frontend (src/frontend/shared/hooks.ts and src/frontend/shared/api.ts),
together with theorems settling the specification claims about it.

The TypeScript code is single-threaded and event-driven; asynchronous
operations are modelled as pure functions parametrised by the outcome of the
I/O they await (network responses, storage reads), and sequences of operations
act on an explicit state.  External effects (network posts, frames written to
the transport) are tracked as outputs so that claims about "exactly one call"
can be stated.
-/

namespace Twende

/-! ## Reconnection backoff
(`WebSocketService.handleReconnect` / `NativeWebSocketService.handleReconnect`,
hooks.ts lines 690-702 and 865-877; both bodies are identical.)

`private maxReconnectAttempts = 5; private reconnectDelay = 1000;`
`handleReconnect` checks `reconnectAttempts < maxReconnectAttempts`; if so it
increments the counter, computes `delay = reconnectDelay * 2 ** (attempts-1)`
and schedules `connect` after that delay; otherwise it only logs
"Max reconnection attempts reached" and schedules nothing (a terminal,
failed, condition). -/

def maxReconnectAttempts : Nat := 5

def reconnectDelay : Nat := 1000

/-- Result of one `handleReconnect` call: `some (attempts, delayMs)` when a
reconnection attempt is scheduled after `delayMs` (the service is in the
reconnecting condition with the new attempt counter), `none` when the maximum
was reached and nothing is scheduled (the failed, terminal condition). -/
def handleReconnect (reconnectAttempts : Nat) : Option (Nat × Nat) :=
  if reconnectAttempts < maxReconnectAttempts then
    let attempts := reconnectAttempts + 1
    some (attempts, reconnectDelay * 2 ^ (attempts - 1))
  else
    none

/-- The delay scheduled before the k-th reconnection attempt (k ≥ 1), obtained
by running `handleReconnect` from a fresh connection (`reconnectAttempts = 0`):
before attempt k the counter is k-1. -/
def reconnectDelayOfAttempt (k : Nat) : Option Nat :=
  (handleReconnect (k - 1)).map Prod.snd

/-- Delays scheduled over `remaining` consecutive connection failures when the
counter currently reads `attempts`; a failure in the exhausted condition
appends nothing. -/
def reconnectTraceFrom (attempts : Nat) : Nat → List Nat
  | 0 => []
  | r + 1 =>
    match handleReconnect attempts with
    | some (a, d) => d :: reconnectTraceFrom a r
    | none => []

/-- Trace of scheduled delays over `n` consecutive connection failures starting
from a fresh connection (`reconnectAttempts = 0`). -/
def reconnectTrace (n : Nat) : List Nat :=
  reconnectTraceFrom 0 n

/-! ## Event-emitter listeners
(`on` / `off` / `emit`, hooks.ts lines 746-765 and 924-943; both classes carry
`private listeners: { [key: string]: Function[] } = {}`.)

Callbacks are compared by JavaScript reference identity (`cb !== callback`);
we model a callback as an identity token (a natural number).  The listener
table is an association list from event name to the ordered list of registered
callback identities. -/

abbrev Listeners := List (String × List Nat)

/-- `this.listeners[event]`, reading `[]` for an absent key (JS `undefined`
guarded by `if (this.listeners[event])`); a JS object holds each key at most
once, so the first entry is the key's value. -/
def getListeners : Listeners → String → List Nat
  | [], _ => []
  | p :: t, event => if p.1 = event then p.2 else getListeners t event

/-- `on(event, callback)` (named `onEvent` here since `on` is reserved in
Lean): creates the array if the key is absent, then pushes the callback. -/
def onEvent : Listeners → String → Nat → Listeners
  | [], event, callback => [(event, [callback])]
  | p :: t, event, callback =>
    if p.1 = event then (p.1, p.2 ++ [callback]) :: t
    else p :: onEvent t event callback

/-- `off(event, callback)`: if the key is present, replaces its array by
`array.filter(cb => cb !== callback)`; otherwise does nothing. -/
def off : Listeners → String → Nat → Listeners
  | [], _, _ => []
  | p :: t, event, callback =>
    if p.1 = event then (p.1, p.2.filter (fun cb => cb ≠ callback)) :: t
    else p :: off t event callback

/-- `emit(event, data)`: invokes every callback registered for `event`, in
order; the result is the ordered list of callback identities invoked for this
one dispatched message. -/
def emit (l : Listeners) (event : String) : List Nat :=
  getListeners l event

/-! ## Outbound sends while not connected
(`NativeWebSocketService.send`, hooks.ts lines 879-883, and the
`socket?.connected`-guarded socket.io methods such as
`WebSocketService.subscribeToSchedule`, lines 705-716.) -/

/-- `WebSocket.readyState` values of the raw React Native socket. -/
inductive ReadyState
  | connecting
  | open
  | closing
  | closed
deriving DecidableEq, Repr

/-- `this.ws`: `none` models the JS `null` handle. -/
abbrev WsHandle := Option ReadyState

/-- `send(message)`: `if (this.ws?.readyState === WebSocket.OPEN) this.ws.send(...)`.
Returns the frames written to the transport by this call; the function is
total, so the call always returns normally (nothing is thrown). -/
def send (ws : WsHandle) (message : String) : List String :=
  match ws with
  | some ReadyState.open => [message]
  | _ => []

/-- `socket?.connected` state of the socket.io variant: `none` models a `null`
socket, `some b` a socket whose `connected` flag is `b`. -/
abbrev SocketHandle := Option Bool

/-- `subscribeToSchedule(scheduleId)` of `WebSocketService`:
`if (this.socket?.connected) this.socket.emit('subscribe_to_schedule', …)`.
Returns the events emitted on the transport by this call. -/
def subscribeToSchedule (socket : SocketHandle) (scheduleId : Nat) : List (String × Nat) :=
  match socket with
  | some true => [("subscribe_to_schedule", scheduleId)]
  | _ => []

/-! ## Inbound message dispatch
(`NativeWebSocketService.handleMessage`, hooks.ts lines 846-863, and the
`onmessage` handler in `setupEventListeners`, lines 836-843.) -/

/-- The wire envelope `{ type, data }`; `data` is kept abstract as a string. -/
structure WebSocketMessage where
  type : String
  data : String
deriving DecidableEq, Repr

/-- `handleMessage(message)`: a `switch` on `message.type` emitting on the
corresponding internal event, with `default:` only logging
"Unknown message type".  The result is the list of (event, data) emissions
fanned out to listeners; the function is total, so nothing is thrown. -/
def handleMessage (message : WebSocketMessage) : List (String × String) :=
  if message.type = "driver_location_update" then [("location_update", message.data)]
  else if message.type = "booking_update" then [("booking_update", message.data)]
  else if message.type = "schedule_status_update" then [("schedule_update", message.data)]
  else if message.type = "notification" then [("notification", message.data)]
  else []

/-- The `onmessage` transport callback: `JSON.parse(event.data)` inside
`try`/`catch`; a parse failure is logged ("Error parsing WebSocket message")
and nothing more happens.  The parse outcome of the raw frame is passed in as
`none` (parse threw) or `some message`. -/
def onMessage (parsed : Option WebSocketMessage) : List (String × String) :=
  match parsed with
  | some message => handleMessage message
  | none => []

/-- The four known inbound message types. -/
def knownMessageTypes : List String :=
  ["driver_location_update", "booking_update", "schedule_status_update", "notification"]

/-! ## Session state and authentication operations
(`AuthProvider` in hooks.ts lines 994-1176: `clearAuth`, `login`, `register`,
`logout`, `refreshToken`; the axios response interceptor in
`createApiClient`, api.ts lines 56-87; `ApiService.logout`, api.ts lines
115-118.)

The state gathers the persisted token-store entries (access token, refresh
token, user record — `useLocalStorage` mirrors of `AUTH_TOKEN_KEY`,
`REFRESH_TOKEN_KEY`, `USER_DATA_KEY`, and the AsyncStorage keys
`access_token` / `refresh_token` / `user` written by api.ts) and the
in-memory `user` React state.  `none` models an absent / cleared entry.
Asynchronous network calls are modelled by passing their outcome in. -/

structure Session where
  accessToken : Option String
  refreshTokenValue : Option String
  userData : Option String
  user : Option String
deriving DecidableEq, Repr

/-- Outcome of an awaited network call: the resolved value, or a rejection
(HTTP error status, network error or timeout). -/
inductive NetResult (α : Type)
  | success (a : α)
  | failure
deriving DecidableEq, Repr

/-- The body of an auth endpoint response (`response.data`): the `access`,
`refresh` and `user` fields, each possibly absent. -/
structure AuthResponse where
  access : Option String
  refresh : Option String
  user : Option String
deriving DecidableEq, Repr

/-- `clearAuth()` (hooks.ts 1033-1038): `setUser(null); setAuthToken(null);
setRefreshTokenValue(null); setUserData(null)` — clears the in-memory user
and all three persisted entries. -/
def clearAuth (_ : Session) : Session :=
  { accessToken := none, refreshTokenValue := none, userData := none, user := none }

/-- `login(credentials)` (hooks.ts 1040-1065).  On a rejected post the catch
rethrows with no state change.  On a resolved post, only when both
`response.data.access` and `response.data.refresh` are truthy are the tokens
and user stored; otherwise `Invalid response from server` is thrown with no
state change.  Returns the new state and whether the call threw. -/
def login (s : Session) (r : NetResult AuthResponse) : Session × Bool :=
  match r with
  | NetResult.failure => (s, true)
  | NetResult.success resp =>
    match resp.access, resp.refresh with
    | some access, some refresh =>
      ({ accessToken := some access, refreshTokenValue := some refresh,
         userData := resp.user, user := resp.user }, false)
    | _, _ => (s, true)

/-- `register(data)` (hooks.ts 1067-1092): same shape as `login` against
`/auth/register/`. -/
def register (s : Session) (r : NetResult AuthResponse) : Session × Bool :=
  login s r

/-- Result of one `refreshToken()` call (hooks.ts 1106-1135). -/
structure RefreshResult where
  store : Session
  threw : Bool
  /-- whether this call issued a network post to `/auth/refresh/` -/
  networkCalled : Bool
deriving DecidableEq, Repr

/-- `refreshToken()` (hooks.ts 1106-1135).  If `refreshTokenValue` is absent
it throws `No refresh token available`, which the catch turns into
`clearAuth()` plus a rethrow, with no network call.  Otherwise it posts
`/auth/refresh/` (always — the function consults no in-flight marker, and
`Session` carries none, exactly as the code stores none): a rejection, or a
response without `access`, runs the catch (`clearAuth`, rethrow); a response
with `access` stores the new access token and user, leaving the refresh token
as it was. -/
def refreshToken (s : Session) (r : NetResult AuthResponse) : RefreshResult :=
  match s.refreshTokenValue with
  | none => { store := clearAuth s, threw := true, networkCalled := false }
  | some _ =>
    match r with
    | NetResult.failure => { store := clearAuth s, threw := true, networkCalled := true }
    | NetResult.success resp =>
      match resp.access with
      | some access =>
        { store := { s with accessToken := some access,
                            userData := resp.user, user := resp.user },
          threw := false, networkCalled := true }
      | none => { store := clearAuth s, threw := true, networkCalled := true }

/-- `logout()` of the `AuthProvider` (hooks.ts 1094-1104): fires the server
post with a `.catch(console.error)` so its outcome never propagates, then the
`finally` block runs `clearAuth()` unconditionally.  Never throws, and the
local state is always cleared, whatever the server call did. -/
def logout (s : Session) (_serverCall : NetResult Unit) : Session :=
  clearAuth s

/-- `ApiService.logout()` (api.ts 115-118):
`await apiClient.post('/auth/logout/'); await AsyncStorage.multiRemove(…)`.
There is no try/catch: when the post rejects, the first `await` throws and the
`multiRemove` line is never reached, so the store keeps its entries.  Only a
resolved post reaches the removal of `access_token`, `refresh_token` and
`user`. -/
def apiServiceLogout (s : Session) (serverCall : NetResult Unit) : Session × Bool :=
  match serverCall with
  | NetResult.failure => (s, true)
  | NetResult.success _ =>
    ({ accessToken := none, refreshTokenValue := none, userData := none,
       user := s.user }, false)

/-! ## Request gateway: the axios response interceptor
(`createApiClient`, api.ts lines 56-87.)  A request carries the mutable
per-request marker `_retry`, initially unset.  On a 401 response with
`_retry` unset, the interceptor sets `_retry`, reads the stored refresh
token, and when one exists posts `/auth/token/refresh/` directly; on success
it stores the new access token and re-issues the original request (which,
carrying `_retry`, can no longer trigger a second refresh); on a rejected
refresh it removes `access_token`, `refresh_token` and `user` and rejects.
Any other error, or a 401 with `_retry` already set, is rejected as is. -/

/-- Server outcome of one send of the original request. -/
inductive RespOutcome
  | ok
  | unauthorized
  | otherErr
deriving DecidableEq, Repr

/-- Trace of one request processed through the gateway. -/
structure GwTrace where
  /-- how many times the original request was sent to the server -/
  sends : Nat
  /-- how many posts to `/auth/token/refresh/` were issued -/
  refreshCalls : Nat
  /-- whether the call resolved successfully for the caller -/
  resolvedOk : Bool
  store : Session
deriving DecidableEq, Repr

/-- One pass of the response interceptor for a request whose `_retry` marker
is `retryFlag` and whose send produced `resp`; `refreshRes` is the outcome of
the refresh post (consulted only when one is issued, with `some access` its
response body), and `retryResp` the server outcome of the re-issued request
(consulted only when a retry happens; the retried request re-enters the
interceptor with `_retry` set, where any error is rejected unchanged). -/
def handleGwResponse (s : Session) (retryFlag : Bool) (resp : RespOutcome)
    (refreshRes : NetResult String) (retryResp : RespOutcome) : GwTrace :=
  match resp with
  | RespOutcome.ok => { sends := 1, refreshCalls := 0, resolvedOk := true, store := s }
  | RespOutcome.otherErr => { sends := 1, refreshCalls := 0, resolvedOk := false, store := s }
  | RespOutcome.unauthorized =>
    if retryFlag then
      { sends := 1, refreshCalls := 0, resolvedOk := false, store := s }
    else
      match s.refreshTokenValue with
      | none => { sends := 1, refreshCalls := 0, resolvedOk := false, store := s }
      | some _ =>
        match refreshRes with
        | NetResult.failure =>
          { sends := 1, refreshCalls := 1, resolvedOk := false,
            store := { accessToken := none, refreshTokenValue := none,
                       userData := none, user := s.user } }
        | NetResult.success access =>
          let s' : Session := { s with accessToken := some access }
          { sends := 2, refreshCalls := 1,
            resolvedOk := retryResp = RespOutcome.ok, store := s' }

/-! ## Concurrent refresh calls (single-flight)
The single-threaded event loop interleaves suspended `refreshToken()`
invocations.  One invocation runs synchronously from its entry to the
`await api.post('/auth/refresh/', …)`: it checks `refreshTokenValue`, and
when one is present issues the post and suspends.  `Session` holds no
in-flight `RefreshOperation` (the code stores none), so this entry phase has
no way to observe that another invocation is already awaiting the network. -/

inductive RefreshPhase
  | ready
  | awaitingNet
  | finished
deriving DecidableEq, Repr

/-- The event loop's world: the shared store, the count of posts issued to
`/auth/refresh/`, and the phase of each pending `refreshToken()`
invocation. -/
structure RefreshWorld where
  store : Session
  networkRefreshCalls : Nat
  procs : List RefreshPhase
deriving DecidableEq, Repr

/-- Run invocation `i` from its entry to its first suspension point: the
`refreshTokenValue` check followed, when the token is present, by issuing the
post (the invocation then awaits the network).  When the token is absent the
invocation throws, runs `clearAuth` in its catch and finishes immediately. -/
def startRefresh (w : RefreshWorld) (i : Nat) : RefreshWorld :=
  match w.procs.get? i with
  | some RefreshPhase.ready =>
    match w.store.refreshTokenValue with
    | some _ =>
      { w with networkRefreshCalls := w.networkRefreshCalls + 1,
               procs := w.procs.set i RefreshPhase.awaitingNet }
    | none =>
      { w with store := clearAuth w.store,
               procs := w.procs.set i RefreshPhase.finished }
  | _ => w

/-! ## Connection establishment
(`NativeWebSocketService.connect`, hooks.ts lines 794-817; the socket.io
variant `WebSocketService.connect`, lines 628-652, has the same structure
with `io(WS_BASE_URL, …)` in place of `new WebSocket(…)`.)

`connect()` reads `access_token` and `user` from storage; when either is
missing it logs "skipping WebSocket connection" and returns.  Otherwise it
runs `JSON.parse(userString)` (a throw is caught and only logged) and then
assigns `this.ws = new WebSocket(url, …)` unconditionally: it never examines
the current `this.ws` or its `readyState`, so an existing open or connecting
socket is simply replaced by a freshly opened one (and is not closed). -/

structure NativeWsConn where
  /-- `this.ws` with its `readyState`; `none` is the JS `null` handle -/
  ws : WsHandle
  /-- how many transport channels this service has opened so far -/
  socketsOpened : Nat
deriving DecidableEq, Repr

/-- `connect()`: `token` and `userString` are the stored `access_token` and
`user` entries, `userParses` the outcome of `JSON.parse(userString)`. -/
def connect (token userString : Option String) (userParses : Bool)
    (c : NativeWsConn) : NativeWsConn :=
  match token, userString with
  | some _, some _ =>
    if userParses then
      { ws := some ReadyState.connecting, socketsOpened := c.socketsOpened + 1 }
    else c
  | _, _ => c

/-! ## Token utilities
(`isTokenExpired`, `getTokenExpiration`, `getTokenTimeUntilExpiry`, hooks.ts
lines 1266-1293.)

Each of the three evaluates `JSON.parse(atob(token.split('.')[1]))` inside
`try`/`catch` and then uses `payload.exp`.  We model the outcome of that
JavaScript evaluation on the input string: the decode throws (malformed
base64 / JSON — the `catch` branch), or yields an object whose `exp` member
is absent (so `payload.exp` is `undefined`, which does NOT throw), or yields
a numeric `exp`.  For example the token string `"a.e30.b"` has middle
segment `"e30"`, `atob("e30") = "\x7b\x7d"` (the two-character string of an
opening and a closing curly brace), and `JSON.parse` of it succeeds with an
object that has no `exp` member: its decode outcome is `expUndefined`.
Times are rationals (seconds, as in `Date.now() / 1000`). -/

inductive PayloadDecode
  | parseError
  | expUndefined
  | exp (e : ℚ)
deriving DecidableEq, Repr

/-- A JavaScript number, which may be `NaN` (`undefined - t` is `NaN`, and
`Math.max(0, NaN)` is `NaN`). -/
inductive JsNumber
  | nan
  | num (q : ℚ)
deriving DecidableEq, Repr

/-- A JavaScript `Date`, which may be the Invalid Date
(`new Date(undefined * 1000)` is `new Date(NaN)`). -/
inductive JsDate
  | invalid
  | atMs (ms : ℚ)
deriving DecidableEq, Repr

/-- `isTokenExpired` (hooks.ts 1266-1274): returns `payload.exp < currentTime`;
the `catch` returns `true`.  When `payload.exp` is `undefined` the JS
comparison `undefined < currentTime` evaluates to `false` without throwing,
so the function returns `false`. -/
def isTokenExpired (d : PayloadDecode) (currentTime : ℚ) : Bool :=
  match d with
  | PayloadDecode.parseError => true
  | PayloadDecode.expUndefined => false
  | PayloadDecode.exp e => decide (e < currentTime)

/-- `getTokenExpiration` (hooks.ts 1276-1283): returns
`new Date(payload.exp * 1000)`; the `catch` returns `null` (modelled `none`).
When `payload.exp` is `undefined`, `undefined * 1000` is `NaN` and the result
is the Invalid Date object — not `null`. -/
def getTokenExpiration (d : PayloadDecode) : Option JsDate :=
  match d with
  | PayloadDecode.parseError => none
  | PayloadDecode.expUndefined => some JsDate.invalid
  | PayloadDecode.exp e => some (JsDate.atMs (e * 1000))

/-- `getTokenTimeUntilExpiry` (hooks.ts 1285-1293): returns
`Math.max(0, payload.exp - currentTime)`; the `catch` returns `0`.  When
`payload.exp` is `undefined` the subtraction is `NaN` and `Math.max(0, NaN)`
is `NaN`. -/
def getTokenTimeUntilExpiry (d : PayloadDecode) (currentTime : ℚ) : JsNumber :=
  match d with
  | PayloadDecode.parseError => JsNumber.num 0
  | PayloadDecode.expUndefined => JsNumber.nan
  | PayloadDecode.exp e => JsNumber.num (max 0 (e - currentTime))

/-! ## Sequences of session operations
For the both-or-neither token invariant we close the session operations —
each parametrised by its network outcome — under sequential composition, the
way the single-threaded runtime executes them. -/

inductive SessionOp
  | loginOp (r : NetResult AuthResponse)
  | registerOp (r : NetResult AuthResponse)
  | refreshOp (r : NetResult AuthResponse)
  | gatewayRequestOp (resp : RespOutcome) (refreshRes : NetResult String) (retryResp : RespOutcome)
  | logoutOp (serverCall : NetResult Unit)
  | apiLogoutOp (serverCall : NetResult Unit)
  | clearOp
deriving DecidableEq, Repr

/-- The store reached after one session operation (the thrown/rejected flag
of the operation does not affect the store beyond what the operation itself
wrote). -/
def applySessionOp (s : Session) : SessionOp → Session
  | SessionOp.loginOp r => (login s r).1
  | SessionOp.registerOp r => (register s r).1
  | SessionOp.refreshOp r => (refreshToken s r).store
  | SessionOp.gatewayRequestOp resp refreshRes retryResp =>
    (handleGwResponse s false resp refreshRes retryResp).store
  | SessionOp.logoutOp serverCall => logout s serverCall
  | SessionOp.apiLogoutOp serverCall => (apiServiceLogout s serverCall).1
  | SessionOp.clearOp => clearAuth s

/-- Run a sequence of session operations from a starting store. -/
def runSessionOps (s : Session) : List SessionOp → Session
  | [] => s
  | op :: ops => runSessionOps (applySessionOp s op) ops

/-- The both-or-neither token invariant of the claim. -/
def bothOrNeither (s : Session) : Prop :=
  s.accessToken.isSome = s.refreshTokenValue.isSome

instance (s : Session) : Decidable (bothOrNeither s) := by
  unfold bothOrNeither
  infer_instance

/-- The empty store (fresh install, nothing persisted). -/
def emptySession : Session :=
  { accessToken := none, refreshTokenValue := none, userData := none, user := none }

/-! # Theorems -/

/-! ## Helper lemmas -/

/-- Removing a callback from one event's list yields, for that event, exactly
the old list with every occurrence of that callback filtered out. -/
theorem getListeners_off (l : Listeners) (event : String) (cb : Nat) :
    getListeners (off l event cb) event
      = (getListeners l event).filter (fun c => c ≠ cb) := by
  induction l with
  | nil => rfl
  | cons p t ih =>
    by_cases h : p.1 = event <;> simp [off, getListeners, h, ih]

/-- `off` is idempotent on the listener table itself. -/
theorem off_idem (l : Listeners) (event : String) (cb : Nat) :
    off (off l event cb) event cb = off l event cb := by
  induction l with
  | nil => rfl
  | cons p t ih =>
    by_cases h : p.1 = event
    · simp [off, h, List.filter_filter]
    · simp [off, h, ih]

/-! ## C2: exponential reconnection backoff -/

/-- C2: with `maxAttempts = 5` and base delay 1000 ms, the delay scheduled
before the k-th reconnection attempt (1 ≤ k ≤ 5) is `1000 * 2 ^ (k - 1)` ms;
every scheduled delay is bounded by the maximum of 16000 ms; the trace of
delays over six consecutive failures is exactly
`[1000, 2000, 4000, 8000, 16000]`; and once the counter has reached the
maximum, a further failure schedules no reconnection attempt — the terminal
failed condition, not another reconnecting one. -/
theorem reconnect_backoff_policy (k : Nat) (h1 : 1 ≤ k) (h2 : k ≤ 5) :
    reconnectDelayOfAttempt k = some (1000 * 2 ^ (k - 1)) ∧
    1000 * 2 ^ (k - 1) ≤ 16000 ∧
    reconnectTrace 6 = [1000, 2000, 4000, 8000, 16000] ∧
    handleReconnect maxReconnectAttempts = none := by
  interval_cases k <;> exact ⟨by decide, by decide, by decide, by decide⟩

/-- Witness for `reconnect_backoff_policy` at k = 5. -/
theorem reconnect_backoff_policy_witness :
    (1 ≤ 5 ∧ 5 ≤ 5) ∧
    (reconnectDelayOfAttempt 5 = some (1000 * 2 ^ (5 - 1)) ∧
     1000 * 2 ^ (5 - 1) ≤ 16000 ∧
     reconnectTrace 6 = [1000, 2000, 4000, 8000, 16000] ∧
     handleReconnect maxReconnectAttempts = none) :=
  ⟨⟨by decide, by decide⟩, reconnect_backoff_policy 5 (by decide) (by decide)⟩

/-! ## C7: unsubscription -/

/-- C7: after `off(event, cb)` the callback `cb` is invoked for no message
dispatched on that event (it is not among the callbacks `emit` invokes); a
second `off` with the same arguments is a no-op on the listener table; and
dispatch to the remaining listeners of that event is exactly what it was with
every registration of `cb` removed, so no other listener is affected. -/
theorem off_unsubscribes (l : Listeners) (event : String) (cb : Nat) :
    cb ∉ emit (off l event cb) event ∧
    off (off l event cb) event cb = off l event cb ∧
    emit (off l event cb) event = (emit l event).filter (fun c => c ≠ cb) := by
  refine ⟨?_, off_idem l event cb, ?_⟩
  · simp [emit, getListeners_off]
  · simp [emit, getListeners_off]

/-! ## C8: sends while not connected are silent no-ops -/

/-- C8: a `send` on the raw-socket service whose handle is absent or not in
the OPEN ready state writes nothing to the transport, and an outbound-event
method of the socket.io service (here `subscribeToSchedule`) with an absent
or non-connected socket emits nothing; both are total functions of the state,
so the calls return normally and throw nothing. -/
theorem send_while_not_connected (ws : WsHandle) (socket : SocketHandle)
    (message : String) (scheduleId : Nat)
    (hws : ws ≠ some ReadyState.open) (hsock : socket ≠ some true) :
    send ws message = [] ∧ subscribeToSchedule socket scheduleId = [] := by
  constructor
  · cases ws with
    | none => rfl
    | some st => cases st <;> simp_all [send]
  · cases socket with
    | none => rfl
    | some b => cases b <;> simp_all [subscribeToSchedule]

/-- Witness for `send_while_not_connected`: a closed socket handle and a
disconnected socket.io handle. -/
theorem send_while_not_connected_witness :
    ((some ReadyState.closed : WsHandle) ≠ some ReadyState.open) ∧
    ((none : SocketHandle) ≠ some true) ∧
    (send (some ReadyState.closed) "ping" = [] ∧ subscribeToSchedule none 7 = []) :=
  ⟨by decide, by decide,
   send_while_not_connected (some ReadyState.closed) none "ping" 7 (by decide) (by decide)⟩

/-! ## C9: unknown inbound frames are dropped -/

/-- C9: an inbound frame whose `type` is none of the four known types
produces no emission — no listener is invoked — and since `handleMessage` and
`onMessage` are total, nothing is thrown to the transport callback; a frame
whose body fails JSON parsing (`onMessage none`) likewise produces no
emission. -/
theorem unknown_message_dropped (m : WebSocketMessage)
    (h : m.type ∉ knownMessageTypes) :
    handleMessage m = [] ∧ onMessage (some m) = [] ∧ onMessage none = [] := by
  simp only [knownMessageTypes, List.mem_cons, List.mem_singleton, not_or] at h
  obtain ⟨h1, h2, h3, h4, -⟩ := h
  refine ⟨?_, ?_, rfl⟩ <;> simp [onMessage, handleMessage, h1, h2, h3, h4]

/-- Witness for `unknown_message_dropped` on a frame of type `"bogus"`. -/
theorem unknown_message_dropped_witness :
    (WebSocketMessage.mk "bogus" "d").type ∉ knownMessageTypes ∧
    (handleMessage (WebSocketMessage.mk "bogus" "d") = [] ∧
     onMessage (some (WebSocketMessage.mk "bogus" "d")) = [] ∧
     onMessage none = []) :=
  ⟨by decide, unknown_message_dropped (WebSocketMessage.mk "bogus" "d") (by decide)⟩

/-! ## C5: the both-or-neither token invariant -/

/-- Every single session operation preserves the both-or-neither token
invariant, whatever its network outcome. -/
theorem applySessionOp_bothOrNeither (s : Session) (op : SessionOp)
    (h : bothOrNeither s) : bothOrNeither (applySessionOp s op) := by
  cases op with
  | loginOp r =>
    cases r with
    | failure => exact h
    | success resp =>
      cases ha : resp.access with
      | none => simpa [applySessionOp, login, ha] using h
      | some a =>
        cases hr : resp.refresh with
        | none => simpa [applySessionOp, login, ha, hr] using h
        | some rf => simp [applySessionOp, login, ha, hr, bothOrNeither]
  | registerOp r =>
    cases r with
    | failure => exact h
    | success resp =>
      cases ha : resp.access with
      | none => simpa [applySessionOp, register, login, ha] using h
      | some a =>
        cases hr : resp.refresh with
        | none => simpa [applySessionOp, register, login, ha, hr] using h
        | some rf => simp [applySessionOp, register, login, ha, hr, bothOrNeither]
  | refreshOp r =>
    cases hrv : s.refreshTokenValue with
    | none => simp [applySessionOp, refreshToken, hrv, clearAuth, bothOrNeither]
    | some rt =>
      cases r with
      | failure => simp [applySessionOp, refreshToken, hrv, clearAuth, bothOrNeither]
      | success resp =>
        cases ha : resp.access with
        | none => simp [applySessionOp, refreshToken, hrv, ha, clearAuth, bothOrNeither]
        | some a => simp [applySessionOp, refreshToken, hrv, ha, bothOrNeither]
  | gatewayRequestOp resp refreshRes retryResp =>
    cases resp with
    | ok => exact h
    | otherErr => exact h
    | unauthorized =>
      cases hrv : s.refreshTokenValue with
      | none => simpa [applySessionOp, handleGwResponse, hrv] using h
      | some rt =>
        cases refreshRes with
        | failure => simp [applySessionOp, handleGwResponse, hrv, bothOrNeither]
        | success a => simp [applySessionOp, handleGwResponse, hrv, bothOrNeither]
  | logoutOp serverCall => simp [applySessionOp, logout, clearAuth, bothOrNeither]
  | apiLogoutOp serverCall =>
    cases serverCall with
    | failure => exact h
    | success u => simp [applySessionOp, apiServiceLogout, bothOrNeither]
  | clearOp => simp [applySessionOp, clearAuth, bothOrNeither]

/-- The invariant propagates along any sequence of session operations. -/
theorem runSessionOps_bothOrNeither (s : Session) (ops : List SessionOp)
    (h : bothOrNeither s) : bothOrNeither (runSessionOps s ops) := by
  induction ops generalizing s with
  | nil => exact h
  | cons op ops ih => exact ih _ (applySessionOp_bothOrNeither s op h)

/-- C5: in every state reachable from the empty store by any sequence of the
session operations — login, register, refresh (including the gateway's
refresh-on-401 path) and logout/clear, each with any success or failure
outcome — the stored access token and refresh token are both present or both
absent; no operation leaves exactly one of the two set. -/
theorem session_token_invariant (ops : List SessionOp) :
    bothOrNeither (runSessionOps emptySession ops) :=
  runSessionOps_bothOrNeither emptySession ops (by decide)

/-! ## C3: refresh-on-401 with single retry -/

/-- C3: a request whose first send returns 401 while a refresh token is
stored and whose refresh post resolves with a new access token triggers
exactly one refresh post and exactly one retry (two sends in total); if the
retried request fails authorization again, the call is rejected with still
only one refresh and one retry; and for any request carrying the `_retry`
marker, a 401 triggers no refresh and no further send, which is what rules
out a second refresh-retry cycle. -/
theorem gateway_refresh_retry (s : Session) (a : String) (retryResp : RespOutcome)
    (hrt : s.refreshTokenValue.isSome) :
    (handleGwResponse s false RespOutcome.unauthorized (NetResult.success a) retryResp).refreshCalls = 1 ∧
    (handleGwResponse s false RespOutcome.unauthorized (NetResult.success a) retryResp).sends = 2 ∧
    (handleGwResponse s false RespOutcome.unauthorized (NetResult.success a)
        RespOutcome.unauthorized).resolvedOk = false ∧
    (∀ (s' : Session) (refreshRes : NetResult String) (r2 : RespOutcome),
      (handleGwResponse s' true RespOutcome.unauthorized refreshRes r2).refreshCalls = 0 ∧
      (handleGwResponse s' true RespOutcome.unauthorized refreshRes r2).sends = 1) := by
  obtain ⟨rt, hrv⟩ := Option.isSome_iff_exists.mp hrt
  refine ⟨?_, ?_, ?_, ?_⟩
  · simp [handleGwResponse, hrv]
  · simp [handleGwResponse, hrv]
  · simp [handleGwResponse, hrv]
  · intro s' refreshRes r2
    simp [handleGwResponse]

/-- Witness for `gateway_refresh_retry`: a store holding refresh token
`"ref"`, refresh response `"newacc"`, and a retry that fails authorization
again. -/
theorem gateway_refresh_retry_witness :
    (Session.mk (some "old") (some "ref") (some "u") (some "u")).refreshTokenValue.isSome ∧
    ((handleGwResponse (Session.mk (some "old") (some "ref") (some "u") (some "u"))
        false RespOutcome.unauthorized (NetResult.success "newacc")
        RespOutcome.unauthorized).refreshCalls = 1 ∧
     (handleGwResponse (Session.mk (some "old") (some "ref") (some "u") (some "u"))
        false RespOutcome.unauthorized (NetResult.success "newacc")
        RespOutcome.unauthorized).sends = 2 ∧
     (handleGwResponse (Session.mk (some "old") (some "ref") (some "u") (some "u"))
        false RespOutcome.unauthorized (NetResult.success "newacc")
        RespOutcome.unauthorized).resolvedOk = false ∧
     (∀ (s' : Session) (refreshRes : NetResult String) (r2 : RespOutcome),
       (handleGwResponse s' true RespOutcome.unauthorized refreshRes r2).refreshCalls = 0 ∧
       (handleGwResponse s' true RespOutcome.unauthorized refreshRes r2).sends = 1)) :=
  ⟨by decide,
   gateway_refresh_retry (Session.mk (some "old") (some "ref") (some "u") (some "u"))
     "newacc" RespOutcome.unauthorized (by decide)⟩

/-! ## C1: refresh is not single-flight -/

/-- C1: two `refreshToken()` invocations entered concurrently — both starting
while the store holds a refresh token and no refresh is in flight — each
issue their own post to `/auth/refresh/`: after both have run to their first
suspension point the count of network refresh calls is 2, not the 1 the
claim requires.  The code stores no in-flight `RefreshOperation` for the
second caller to observe and await. -/
theorem concurrent_refresh_not_single_flight :
    (startRefresh
      (startRefresh
        (RefreshWorld.mk (Session.mk (some "acc") (some "ref") (some "u") (some "u")) 0
          [RefreshPhase.ready, RefreshPhase.ready]) 0) 1).networkRefreshCalls = 2 := by
  decide

/-! ## C4: ApiService.logout on server failure -/

/-- C4: at the failing input — a store holding tokens and a server logout
post that rejects — `ApiService.logout` throws out of its first `await`
before reaching `AsyncStorage.multiRemove`, so the store still holds the
access token, the refresh token and the user entry; by contrast the
`AuthProvider`'s `logout` clears the store on the same server outcome. -/
theorem apiService_logout_keeps_tokens_on_server_failure :
    (apiServiceLogout (Session.mk (some "acc") (some "ref") (some "u") (some "u"))
        NetResult.failure).1.accessToken = some "acc" ∧
    (apiServiceLogout (Session.mk (some "acc") (some "ref") (some "u") (some "u"))
        NetResult.failure).1.refreshTokenValue = some "ref" ∧
    (apiServiceLogout (Session.mk (some "acc") (some "ref") (some "u") (some "u"))
        NetResult.failure).1.userData = some "u" ∧
    (apiServiceLogout (Session.mk (some "acc") (some "ref") (some "u") (some "u"))
        NetResult.failure).2 = true ∧
    logout (Session.mk (some "acc") (some "ref") (some "u") (some "u"))
        NetResult.failure
      = clearAuth (Session.mk (some "acc") (some "ref") (some "u") (some "u")) := by
  decide

/-! ## C6: connect is not idempotent -/

/-- C6 counterexample: with credentials stored, calling `connect()` while the
current socket is already open is not a no-op — it opens a second transport
channel (the opened-channel count goes from 1 to 2) and replaces the stored
handle with the new connecting socket. -/
theorem connect_not_idempotent_cex :
    connect (some "tok") (some "user") true (NativeWsConn.mk (some ReadyState.open) 1)
      ≠ NativeWsConn.mk (some ReadyState.open) 1 ∧
    (connect (some "tok") (some "user") true
      (NativeWsConn.mk (some ReadyState.open) 1)).socketsOpened = 2 := by
  decide

/-- C6 amended: `connect()` never consults the current connection state.  It
is a no-op exactly when the stored token or user entry is missing or the
stored user record fails to parse; whenever credentials are present and
parse, it opens a fresh transport channel and overwrites the stored handle
with it, even while already connecting or connected (the previous socket is
not closed). -/
theorem connect_behavior (token userString : Option String) (userParses : Bool)
    (c : NativeWsConn) :
    (token = none ∨ userString = none ∨ userParses = false →
      connect token userString userParses c = c) ∧
    (∀ tk us, token = some tk → userString = some us → userParses = true →
      (connect token userString userParses c).socketsOpened = c.socketsOpened + 1 ∧
      (connect token userString userParses c).ws = some ReadyState.connecting) := by
  constructor
  · rintro (rfl | rfl | rfl)
    · cases userString <;> simp [connect]
    · cases token <;> simp [connect]
    · cases token <;> cases userString <;> simp [connect]
  · rintro tk us rfl rfl rfl
    simp [connect]

/-- Witness for `connect_behavior`: a missing token makes `connect` a no-op,
and present credentials over an open socket open a second channel. -/
theorem connect_behavior_witness :
    connect none (some "user") true (NativeWsConn.mk (some ReadyState.open) 3)
      = NativeWsConn.mk (some ReadyState.open) 3 ∧
    (connect (some "tok") (some "user") true
      (NativeWsConn.mk (some ReadyState.open) 3)).socketsOpened = 3 + 1 :=
  ⟨(connect_behavior none (some "user") true
      (NativeWsConn.mk (some ReadyState.open) 3)).1 (Or.inl rfl),
   ((connect_behavior (some "tok") (some "user") true
      (NativeWsConn.mk (some ReadyState.open) 3)).2 "tok" "user" rfl rfl rfl).1⟩

/-! ## C10: token utilities on undecodable payloads -/

/-- C10 counterexample: the token string `"a.e30.b"` decodes (its middle
segment parses to the empty JSON object) but carries no numeric `exp`, so it
"cannot be decoded as a JWT with a numeric exp claim"; on it `isTokenExpired`
returns `false` (the claim says `true`), `getTokenExpiration` returns the
Invalid Date object (the claim says `null`), and `getTokenTimeUntilExpiry`
returns `NaN` (the claim says `0`). -/
theorem token_utils_decodable_without_exp_cex :
    isTokenExpired PayloadDecode.expUndefined 1700000000 = false ∧
    getTokenExpiration PayloadDecode.expUndefined = some JsDate.invalid ∧
    getTokenTimeUntilExpiry PayloadDecode.expUndefined 1700000000 = JsNumber.nan := by
  refine ⟨rfl, rfl, rfl⟩

/-- C10 amended: for an input whose payload fails to decode at all (the
base64/JSON parse throws), `isTokenExpired` returns `true`,
`getTokenExpiration` returns `null` and `getTokenTimeUntilExpiry` returns
`0`; for a token that parses but has no `exp` member, `isTokenExpired`
returns `false`, `getTokenExpiration` the Invalid Date and
`getTokenTimeUntilExpiry` `NaN`; and for a token with numeric `exp`,
`getTokenTimeUntilExpiry` is `max 0 (exp - now)`, which is never negative. -/
theorem token_utils_behavior (t e : ℚ) :
    (isTokenExpired PayloadDecode.parseError t = true ∧
     getTokenExpiration PayloadDecode.parseError = none ∧
     getTokenTimeUntilExpiry PayloadDecode.parseError t = JsNumber.num 0) ∧
    (isTokenExpired PayloadDecode.expUndefined t = false ∧
     getTokenExpiration PayloadDecode.expUndefined = some JsDate.invalid ∧
     getTokenTimeUntilExpiry PayloadDecode.expUndefined t = JsNumber.nan) ∧
    (getTokenTimeUntilExpiry (PayloadDecode.exp e) t = JsNumber.num (max 0 (e - t)) ∧
     0 ≤ max 0 (e - t)) := by
  exact ⟨⟨rfl, rfl, rfl⟩, ⟨rfl, rfl, rfl⟩, ⟨rfl, le_max_left 0 (e - t)⟩⟩

end Twende
